import Mathlib

/-
Verification development for the MCP process-and-protocol manager of
lit-mux (src/lit_mux/services/mcp_client.py).

The embedding models:
  - a JSON value type and the Python operations the code applies to parsed
    JSON (dict.get, the `in` membership test, indexing), including the
    exceptions those operations raise on non-dict values;
  - MCPServerProcess: its (process, is_running) state, the stop/cleanup
    sequence with an explicit fault oracle for each primitive that can
    raise (terminate, kill, pipe closes, reap), and send_request with an
    explicit channel outcome (reply / no reply / timeout / broken pipe);
  - the _read_response line loop with its 50-line budget;
  - MCPClient: the servers and tools dictionaries (association lists with
    unique keys), the request id counter, the stats counters, and the
    operations add_server, remove_server, force_shutdown, execute_tool,
    get_available_tools, get_tools_by_server and health_check.
-/

set_option autoImplicit false

namespace MCP

/-- JSON values as produced by json.loads: null, booleans, integers,
strings, arrays and objects (field lists; parsed dicts have unique keys). -/
inductive Json where
  | null : Json
  | bool (b : Bool) : Json
  | num (n : Int) : Json
  | str (s : String) : Json
  | arr (xs : List Json) : Json
  | obj (fields : List (String × Json)) : Json

/-- First value bound to a key in a field list (Python dict lookup). -/
def lookupField : List (String × Json) → String → Option Json
  | [], _ => none
  | (k', v) :: rest, k => if k' = k then some v else lookupField rest k

/-- Python dict.get(k) on a parsed JSON value: some value when the value is
an object carrying the key, none otherwise (absent key yields Python None;
we only apply this to objects). -/
def Json.get? : Json → String → Option Json
  | .obj fs, k => lookupField fs k
  | _, _ => none

/-- Whether a JSON value is an object (a Python dict). -/
def Json.isObj : Json → Bool
  | .obj _ => true
  | _ => false

/-- Membership of a key among an object's keys. -/
def Json.hasKey (j : Json) (k : String) : Bool :=
  (j.get? k).isSome

/-- The exceptions raised by the Python operations we model. -/
inductive PyErr where
  | valueError (msg : String) : PyErr
  | typeError : PyErr
  | attributeError : PyErr
  | keyError : PyErr
  | toolExecutionError (msg : Json) : PyErr

/-- Python `k in x` for a string key k: key membership for dicts, element
membership for lists, substring test for strings; TypeError otherwise
(in particular for None, which `execute_tool` hits when `send_request`
returns None). -/
def pyContains : Json → String → Except PyErr Bool
  | .obj fs, k => .ok (lookupField fs k).isSome
  | .arr xs, k =>
      .ok (xs.any (fun x => match x with | .str s => s = k | _ => false))
  | .str s, k => .ok (decide (List.IsInfix k.data s.data))
  | _, _ => .error .typeError

/-- Python `x[k]` for a string key: value for dicts (KeyError when absent),
TypeError for every non-dict. -/
def pyIndex : Json → String → Except PyErr Json
  | .obj fs, k =>
      match lookupField fs k with
      | some v => .ok v
      | none => .error .keyError
  | _, _ => .error .typeError

/-- Python `x.get(k, d)` for a string key: dict lookup with default;
AttributeError on every non-dict (lists and strings have no .get). -/
def pyGet : Json → String → Json → Except PyErr Json
  | .obj fs, k, d => .ok ((lookupField fs k).getD d)
  | _, _, _ => .error .attributeError

/-- Test performed by _read_response line 211: data.get("method") ==
"notifications/message". Only an object whose method field is exactly that
string passes; any other method value (or its absence) fails the test. -/
def isMsgNotification (j : Json) : Bool :=
  match j.get? "method" with
  | some (.str s) => s = "notifications/message"
  | _ => false

/-- Test performed by _read_response line 215: data.get("id") ==
request_id for an integer request id. -/
def idMatches (j : Json) (rid : Int) : Bool :=
  match j.get? "id" with
  | some (.num n) => n = rid
  | _ => false

/-- One line delivered by process.stdout.readline, already classified:
blank after strip (continue), invalid JSON (JSONDecodeError, continue), or
a parsed JSON value. End of input (readline returning the empty string,
which breaks the loop) is the end of the line list. -/
inductive ReadLine where
  | blank : ReadLine
  | badJson : ReadLine
  | parsed (j : Json) : ReadLine

/-- The acceptance test of _read_response, as the code performs it: the
object is not a "notifications/message" notification, and either the
expected id is given and the object's id equals it, or no id is expected
and the object has a "result" key. -/
def acceptsAsAnswer (j : Json) (rid : Option Int) : Bool :=
  !(isMsgNotification j) &&
    (match rid with
     | some i => idMatches j i
     | none => j.hasKey "result")

/-- The _read_response loop: up to maxLines iterations; EOF breaks; blank
and unparsable lines are skipped; a parsed non-object value makes
data.get raise AttributeError, which the outer handler turns into a break;
a "notifications/message" notification is skipped; otherwise the object is
returned exactly when the acceptance test passes. -/
def readResponseAux (rid : Option Int) : Nat → List ReadLine → Option Json
  | 0, _ => none
  | _ + 1, [] => none
  | fuel + 1, line :: rest =>
    match line with
    | .blank => readResponseAux rid fuel rest
    | .badJson => readResponseAux rid fuel rest
    | .parsed j =>
      match j with
      | .obj fs =>
        if isMsgNotification (.obj fs) then readResponseAux rid fuel rest
        else
          match rid with
          | some i =>
            if idMatches (.obj fs) i then some (.obj fs)
            else readResponseAux rid fuel rest
          | none =>
            if (Json.obj fs).hasKey "result" then some (.obj fs)
            else readResponseAux rid fuel rest
      | _ => none

/-- Entry point of _read_response with the source's max_lines = 50. -/
def readResponse (rid : Option Int) (lines : List ReadLine) : Option Json :=
  readResponseAux rid 50 lines

/-- An OS child process as the supervisor observes it: its pid and whether
it has exited (poll() returning a value rather than None). -/
structure Proc where
  pid : Nat
  exited : Bool
deriving DecidableEq, Repr

/-- Mutable state of one MCPServerProcess: the optional process handle and
the cached is_running flag. -/
structure SupState where
  process : Option Proc
  is_running : Bool
deriving DecidableEq, Repr

/-- Fault oracle for _cleanup_process: whether each close call and the
poll/wait reap raise. A raise inside the cleanup try-block skips the
remaining statements, is absorbed by the except clause, and the finally
clause still clears the process reference and the flag. -/
structure CleanupFaults where
  closeStdinRaises : Bool
  closeStdoutRaises : Bool
  closeStderrRaises : Bool
  reapRaises : Bool
deriving DecidableEq, Repr

/-- No cleanup-level faults. -/
def CleanupFaults.none : CleanupFaults :=
  ⟨false, false, false, false⟩

/-- Observable effects of one _cleanup_process run: which pipe closes
completed without raising, and whether the exit status was reaped
(poll, or wait when still running). -/
structure CleanupEffects where
  stdinClosed : Bool
  stdoutClosed : Bool
  stderrClosed : Bool
  reaped : Bool
deriving DecidableEq, Repr

/-- Effects when cleanup did not run or had nothing to do. -/
def CleanupEffects.nothing : CleanupEffects :=
  ⟨false, false, false, false⟩

/-- Model of _cleanup_process: no-op when no process is attached; otherwise close
stdin, stdout, stderr in order, then reap (wait if poll() is None) - each
step skipped once an earlier step raised; the except clause absorbs the
exception and the finally clause sets process to None and is_running to
False unconditionally. Never raises to its caller. -/
def cleanupProcess (s : SupState) (f : CleanupFaults) :
    SupState × CleanupEffects :=
  match s.process with
  | none => (s, CleanupEffects.nothing)
  | some _ =>
    (⟨none, false⟩,
     { stdinClosed := !f.closeStdinRaises
       stdoutClosed := !f.closeStdinRaises && !f.closeStdoutRaises
       stderrClosed :=
         !f.closeStdinRaises && !f.closeStdoutRaises && !f.closeStderrRaises
       reaped :=
         !f.closeStdinRaises && !f.closeStdoutRaises &&
           !f.closeStderrRaises && !f.reapRaises })

/-- Fault oracle for stop(): whether terminate() raises, whether the child
exits within the 2 s grace period, whether the force-kill step raises, and
the cleanup-level faults. -/
structure StopFaults where
  terminateRaises : Bool
  gracefulWithinGrace : Bool
  killRaises : Bool
  cleanup : CleanupFaults
deriving DecidableEq, Repr

/-- Which branch of stop() ran to completion. -/
inductive StopPath where
  | noop : StopPath
  | graceful : StopPath
  | forcedKill : StopPath
  | exceptPath : StopPath
deriving DecidableEq, Repr

/-- Observable effects of one stop() call. -/
structure StopEffects where
  cleanupRan : Bool
  cleanup : CleanupEffects
  raised : Bool
  path : StopPath
deriving DecidableEq, Repr

/-- stop(): no-op unless a process is attached and is_running is true.
Otherwise terminate; a raise from terminate lands in the except clause,
which runs cleanup. On graceful exit within the grace period, cleanup runs.
On grace-period timeout, force-kill; a raise from the kill step lands in
the except clause, which runs cleanup; otherwise cleanup runs after the
kill. Every exception raised mid-sequence is absorbed (cleanup itself
never raises), so stop never raises to its caller. -/
def stop (s : SupState) (f : StopFaults) : SupState × StopEffects :=
  match s.process with
  | none => (s, ⟨false, CleanupEffects.nothing, false, .noop⟩)
  | some p =>
    if s.is_running then
      if f.terminateRaises then
        let (s', ce) := cleanupProcess ⟨some p, s.is_running⟩ f.cleanup
        (s', ⟨true, ce, false, .exceptPath⟩)
      else if f.gracefulWithinGrace then
        let (s', ce) := cleanupProcess ⟨some p, s.is_running⟩ f.cleanup
        (s', ⟨true, ce, false, .graceful⟩)
      else if f.killRaises then
        let (s', ce) := cleanupProcess ⟨some p, s.is_running⟩ f.cleanup
        (s', ⟨true, ce, false, .exceptPath⟩)
      else
        let (s', ce) := cleanupProcess ⟨some p, s.is_running⟩ f.cleanup
        (s', ⟨true, ce, false, .forcedKill⟩)
    else (s, ⟨false, CleanupEffects.nothing, false, .noop⟩)

/-- Outcome of the write-then-read body of send_request once the
pre-checks have passed: a reply arrived in time, the read loop returned
None in time, the timeout elapsed, the pipe broke (BrokenPipeError or
OSError), or some other exception was raised. -/
inductive ChanOutcome where
  | reply (j : Json) : ChanOutcome
  | noReply : ChanOutcome
  | timeout : ChanOutcome
  | brokenPipe : ChanOutcome
  | otherError : ChanOutcome

/-- send_request: returns None without touching state when not running or
no process is attached; when the liveness probe (poll) finds the process
exited, demotes is_running and runs cleanup, returning None; otherwise a
broken pipe demotes the flag and cleans up, while a timeout, a read-loop
miss or any other exception return None leaving the state untouched. -/
def sendRequest (s : SupState) (o : ChanOutcome) : SupState × Option Json :=
  match s.process with
  | none => (s, none)
  | some p =>
    if !s.is_running then (s, none)
    else if p.exited then (⟨none, false⟩, none)
    else
      match o with
      | .reply j => (s, some j)
      | .noReply => (s, none)
      | .timeout => (s, none)
      | .brokenPipe => (⟨none, false⟩, none)
      | .otherError => (s, none)

/-- MCP server configuration (MCPServerConfig). -/
structure MCPServerConfig where
  name : String
  command : String
  args : List String
  env : List (String × String)
  timeout : Nat
deriving DecidableEq, Repr

/-- A registered MCP tool: name, description and owning server (the
parameter schema is an opaque document the manager never inspects, so it
is not modelled). -/
structure MCPTool where
  name : String
  description : String
  server_name : Option String
deriving DecidableEq, Repr

/-- The stats counters of MCPClient.__init__. -/
structure ManagerStats where
  servers_created : Nat
  servers_failed : Nat
  servers_removed : Nat
  total_requests : Nat
  failed_requests : Nat
deriving DecidableEq, Repr

/-- All-zero counters. -/
def ManagerStats.zero : ManagerStats :=
  ⟨0, 0, 0, 0, 0⟩

/-- State of an MCPClient: the servers dict, the tools dict (both
insertion-ordered with unique keys, modelled as association lists), the
request id counter and the stats counters. -/
structure MCPClient where
  servers : List (String × SupState)
  tools : List (String × MCPTool)
  request_id : Nat
  stats : ManagerStats
deriving DecidableEq, Repr

/-- Dict lookup on an association list. -/
def dictGet {α : Type} : List (String × α) → String → Option α
  | [], _ => none
  | (k', v) :: rest, k => if k' = k then some v else dictGet rest k

/-- Dict assignment: replace in place when the key is present, append
otherwise (Python dict insertion-order semantics). -/
def dictSet {α : Type} : List (String × α) → String → α → List (String × α)
  | [], k, v => [(k, v)]
  | (k', v') :: rest, k, v =>
      if k' = k then (k, v) :: rest else (k', v') :: dictSet rest k v

/-- Dict deletion of a key (keys are unique, so removing every binding of
the key coincides with Python del). -/
def dictDel {α : Type} : List (String × α) → String → List (String × α)
  | [], _ => []
  | (k', v) :: rest, k =>
      if k' = k then dictDel rest k else (k', v) :: dictDel rest k

/-- get_available_tools: the list of tool values. -/
def getAvailableTools (c : MCPClient) : List MCPTool :=
  c.tools.map (fun p => p.2)

/-- get_tools_by_server: tool values whose server_name equals the given
server name. -/
def getToolsByServer (c : MCPClient) (serverName : String) : List MCPTool :=
  (c.tools.map (fun p => p.2)).filter
    (fun t => decide (t.server_name = some serverName))

/-- remove_server: unknown name returns false with no mutation; otherwise
stop the supervisor (stop never raises), delete its entry, delete every
tool whose server_name is this server, increment servers_removed, and
return true. The stopped supervisor object is discarded with the entry. -/
def removeServer (c : MCPClient) (serverName : String) (f : StopFaults) :
    MCPClient × Bool :=
  match dictGet c.servers serverName with
  | none => (c, false)
  | some s =>
    let stopped := stop s f
    ({ servers := dictDel c.servers serverName
       tools := c.tools.filter
         (fun p => decide (p.2.server_name ≠ some serverName))
       request_id := c.request_id
       stats := { c.stats with
         servers_removed := c.stats.servers_removed + 1 } },
     !stopped.2.raised)

/-- Outcome oracle for add_server: whether start() succeeds (the command
spawns and is still alive after the 0.5 s startup grace probe), the pid of
the spawned process, whether the initialize handshake succeeds, and the
tool (name, description) entries reported by a usable tools/list result
(empty when discovery fails, which is non-fatal). -/
structure AddOutcome where
  startOk : Bool
  pid : Nat
  handshakeOk : Bool
  discovered : List (String × String)
deriving DecidableEq, Repr

/-- Tool-registration loop of _discover_tools: each reported tool is
stored under key "server.tool" tagged with the owning server. -/
def registerTools (serverName : String) :
    List (String × String) → MCPClient → MCPClient
  | [], c => c
  | t :: rest, c =>
      registerTools serverName rest
        { c with tools := (dictSet c.tools (serverName ++ "." ++ t.1)
            (MCPTool.mk t.1 t.2 (some serverName))) }

/-- Model of _discover_tools: consumes one request id for the tools/list call, then
registers every reported tool; a missing or unusable result registers
nothing and is non-fatal. -/
def discoverTools (c : MCPClient) (serverName : String)
    (ts : List (String × String)) : MCPClient :=
  registerTools serverName ts { c with request_id := c.request_id + 1 }

/-- add_server: increments servers_created unconditionally on entry; if
the name already has a supervisor, removes it first (replace semantics).
On start failure, increments servers_failed and returns false. On start
success the supervisor is inserted and the initialize handshake consumes
one request id; on handshake failure, servers_failed is incremented, the
supervisor is stopped and its entry deleted, and false is returned; on
handshake success, discovery runs and true is returned. -/
def addServer (c : MCPClient) (cfg : MCPServerConfig) (o : AddOutcome)
    (f : StopFaults) : MCPClient × Bool :=
  let c1 := { c with stats := { c.stats with
    servers_created := c.stats.servers_created + 1 } }
  let c2 := if (dictGet c1.servers cfg.name).isSome then
      (removeServer c1 cfg.name f).1
    else c1
  if o.startOk then
    let started : SupState := ⟨some ⟨o.pid, false⟩, true⟩
    let c3 := { c2 with servers := dictSet c2.servers cfg.name started }
    let c4 := { c3 with request_id := c3.request_id + 1 }
    if o.handshakeOk then
      (discoverTools c4 cfg.name o.discovered, true)
    else
      let c5 := { c4 with stats := { c4.stats with
        servers_failed := c4.stats.servers_failed + 1 } }
      let _ := stop started f
      let c6 := { c5 with servers := dictDel c5.servers cfg.name }
      (c6, false)
  else
    ({ c2 with stats := { c2.stats with
      servers_failed := c2.stats.servers_failed + 1 } }, false)

/-- Pids killed by the force_shutdown loop: every server with a process
attached and its is_running flag true receives an immediate kill (an
exception from the kill is absorbed; either way the flag is set false and
the entry is cleared afterwards). -/
def killRunningPids : List (String × SupState) → List Nat
  | [] => []
  | (_, s) :: rest =>
    match s.process with
    | some p =>
        if s.is_running then p.pid :: killRunningPids rest
        else killRunningPids rest
    | none => killRunningPids rest

/-- force_shutdown: kill every running supervisor's process immediately
with no grace wait (kill exceptions absorbed, flag demoted either way),
then clear both the servers and tools dicts. Returns the pids that were
killed. killRaises tells which pids' kill calls raise; the result does not
depend on it, which is the absorption. -/
def forceShutdown (c : MCPClient) (killRaises : Nat → Bool) :
    MCPClient × List Nat :=
  let _ := killRaises
  ({ c with servers := [], tools := [] }, killRunningPids c.servers)

/-- The JSON request object execute_tool sends. -/
def toolCallRequest (id : Nat) (toolName : String) (args : Json) : Json :=
  .obj [("jsonrpc", .str "2.0"), ("id", .num (Int.ofNat id)),
        ("method", .str "tools/call"),
        ("params", .obj [("name", .str toolName), ("arguments", args)])]

/-- Response-processing tail of execute_tool, after the request has been
sent. When send_request returned None, the membership test "error" in
response raises TypeError (logged and re-raised by the handler). A
response with an "error" field raises the tool-execution failure carrying
the error object's message (default "Unknown error"); an error value that
is not a dict makes .get raise AttributeError. Otherwise the result is
response.get("result", then an empty dict), and its "content" entry is
returned when present, else the whole result value. -/
def processToolResponse : Option Json → Except PyErr Json
  | none => .error .typeError
  | some r =>
    match pyContains r "error" with
    | .error e => .error e
    | .ok true =>
      match pyIndex r "error" with
      | .error e => .error e
      | .ok errVal =>
        match pyGet errVal "message" (.str "Unknown error") with
        | .error e => .error e
        | .ok m => .error (.toolExecutionError m)
    | .ok false =>
      match pyGet r "result" (.obj []) with
      | .error e => .error e
      | .ok result =>
        match pyContains result "content" with
        | .error e => .error e
        | .ok true => pyIndex result "content"
        | .ok false => .ok result

/-- execute_tool: unknown server or a non-running server raise ValueError
before any I/O or stats change. Otherwise a fresh request id is taken, a
tools/call request carrying it is sent, and the response is processed by
processToolResponse. No stats counter is touched anywhere in this method.
The middle component is the request that was sent, if any. -/
def executeTool (c : MCPClient) (serverName toolName : String) (args : Json)
    (resp : Option Json) : MCPClient × Option Json × Except PyErr Json :=
  match dictGet c.servers serverName with
  | none =>
      (c, none,
       .error (.valueError ("MCP server " ++ serverName ++ " not found")))
  | some s =>
    if !s.is_running then
      (c, none,
       .error (.valueError ("MCP server " ++ serverName ++ " is not running")))
    else
      let c1 := { c with request_id := c.request_id + 1 }
      (c1, some (toolCallRequest c1.request_id toolName args),
       processToolResponse resp)

/-- True OS-level liveness as health_check probes it: a process is
attached and poll() returns None. -/
def processAlive (s : SupState) : Bool :=
  match s.process with
  | some p => !p.exited
  | none => false

/-- Per-server entry of the health report. -/
structure ServerHealth where
  running : Bool
  process_alive : Bool
  tools : Nat
  pid : Option Nat
deriving DecidableEq, Repr

/-- The health report returned by health_check. -/
structure HealthReport where
  servers : List (String × ServerHealth)
  total_tools : Nat
  statistics : ManagerStats
deriving DecidableEq, Repr

/-- The per-server entry health_check reports: running is the conjunction
of the cached flag and true liveness, then the liveness itself, the tool
count, and the pid (null when no process is attached). -/
def healthEntry (c : MCPClient) (name : String) (s : SupState) :
    ServerHealth :=
  { running := s.is_running && processAlive s
    process_alive := processAlive s
    tools := (getToolsByServer c name).length
    pid := s.process.map Proc.pid }

/-- The flag correction health_check applies: when the cached flag is true
but the process has exited, set the flag to false; otherwise leave the
supervisor untouched. -/
def healthCorrect (s : SupState) : SupState :=
  if s.is_running && !processAlive s then { s with is_running := false }
  else s

/-- health_check: build the report from every supervisor's probed state,
correct stale running flags, and also report the total tool count and a
copy of the stats. -/
def healthCheck (c : MCPClient) : MCPClient × HealthReport :=
  ({ c with servers :=
      c.servers.map (fun p => (p.1, healthCorrect p.2)) },
   { servers := c.servers.map (fun p => (p.1, healthEntry c p.1 p.2))
     total_tools := c.tools.length
     statistics := c.stats })

/-- A fresh MCPClient as built by __init__. -/
def initClient : MCPClient :=
  ⟨[], [], 0, ManagerStats.zero⟩

/-- A live, not-yet-exited child process used in concrete scenarios. -/
def pLive : Proc :=
  ⟨7, false⟩

/-- A supervisor with a live attached process and a true running flag. -/
def supLive : SupState :=
  ⟨some pLive, true⟩

/-- A supervisor whose process has exited while the flag still says true. -/
def supStale : SupState :=
  ⟨some ⟨9, true⟩, true⟩

/-- Fault oracle with a graceful child exit and no cleanup faults. -/
def faultsClean : StopFaults :=
  ⟨false, true, false, CleanupFaults.none⟩

/-- Fault oracle where stdin.close() raises inside _cleanup_process
(graceful exit path otherwise). -/
def faultsStdinRaise : StopFaults :=
  ⟨false, true, false, ⟨true, false, false, false⟩⟩

/-- A parsed line that carries both a method field (a notification that is
not "notifications/message") and a result field. -/
def jMethodResult : Json :=
  .obj [("method", .str "tools/progress"), ("result", .null)]

/-- An example server configuration. -/
def cfgAlpha : MCPServerConfig :=
  ⟨"alpha", "alpha-cmd", [], [], 10⟩

/-- An add_server outcome where the command fails to spawn (or has exited
when probed after the startup grace interval). -/
def spawnFailure : AddOutcome :=
  ⟨false, 3, false, []⟩

/-- A client holding two live servers and one tool of each. -/
def cTwo : MCPClient :=
  ⟨[("a", supLive), ("b", ⟨some ⟨8, false⟩, true⟩)],
   [("a.t1", ⟨"t1", "d1", some "a"⟩), ("b.t2", ⟨"t2", "d2", some "b"⟩)],
   5, ManagerStats.zero⟩

/-- A successful tools/call response whose result is an empty object. -/
def respEmptyResult : Json :=
  .obj [("result", .obj [])]

/- Helper lemmas shared by the claim theorems. -/

lemma stop_raised_false (s : SupState) (f : StopFaults) :
    (stop s f).2.raised = false := by
  rcases s with ⟨proc, run⟩
  rcases f with ⟨t, g, k, cf⟩
  cases proc <;> cases run <;> cases t <;> cases g <;> cases k <;> rfl

lemma stop_state_running (p : Proc) (f : StopFaults) :
    (stop ⟨some p, true⟩ f).1 = ⟨none, false⟩ ∧
    (stop ⟨some p, true⟩ f).2.cleanupRan = true := by
  rcases f with ⟨t, g, k, cf⟩
  cases t <;> cases g <;> cases k <;> exact ⟨rfl, rfl⟩

lemma stop_cleanup_clean (p : Proc) (f : StopFaults)
    (h : f.cleanup = CleanupFaults.none) :
    (stop ⟨some p, true⟩ f).2.cleanup = ⟨true, true, true, true⟩ := by
  rcases f with ⟨t, g, k, cf⟩
  have h' : cf = CleanupFaults.none := h
  subst h'
  cases t <;> cases g <;> cases k <;> rfl

lemma dictGet_dictDel_self {α : Type} (l : List (String × α)) (k : String) :
    dictGet (dictDel l k) k = none := by
  induction l with
  | nil => rfl
  | cons hd tl ih =>
      rcases hd with ⟨k', v⟩
      by_cases h : k' = k <;> simp [dictDel, dictGet, h, ih]

lemma dictGet_map {α β : Type} (g : String → α → β)
    (l : List (String × α)) (k : String) :
    dictGet (l.map (fun p => (p.1, g p.1 p.2))) k =
      (dictGet l k).map (g k) := by
  induction l with
  | nil => rfl
  | cons hd tl ih =>
      rcases hd with ⟨k', v⟩
      by_cases h : k' = k <;> simp [dictGet, h, ih]

lemma dictGet_map_val {α β : Type} (g : α → β)
    (l : List (String × α)) (k : String) :
    dictGet (l.map (fun p => (p.1, g p.2))) k = (dictGet l k).map g := by
  induction l with
  | nil => rfl
  | cons hd tl ih =>
      rcases hd with ⟨k', v⟩
      by_cases h : k' = k <;> simp [dictGet, h, ih]

lemma healthCorrect_eq (s : SupState) :
    healthCorrect s = ⟨s.process, s.is_running && processAlive s⟩ := by
  rcases s with ⟨proc, run⟩
  cases run <;> cases h : processAlive ⟨proc, _⟩ <;>
    simp_all [healthCorrect]

lemma registerTools_stats (n : String) (ts : List (String × String))
    (c : MCPClient) : (registerTools n ts c).stats = c.stats := by
  induction ts generalizing c with
  | nil => rfl
  | cons t rest ih => simp [registerTools, ih]

lemma killRunningPids_mem (l : List (String × SupState)) (name : String)
    (s : SupState) (p : Proc) (hmem : (name, s) ∈ l)
    (hrun : s.is_running = true) (hp : s.process = some p) :
    p.pid ∈ killRunningPids l := by
  induction l with
  | nil => cases hmem
  | cons hd tl ih =>
      rcases hd with ⟨n', s'⟩
      rcases List.mem_cons.mp hmem with h | h
      · have hs : s = s' := congrArg Prod.snd h
        subst hs
        simp [killRunningPids, hp, hrun]
      · have hmem' := ih h
        rcases s' with ⟨proc', run'⟩
        cases proc' <;> cases run' <;>
          simp [killRunningPids, List.mem_cons, hmem']

/- Claim theorems. -/

/-- C1 (amended): for every call to stop() on a supervisor with an
attached process and a true running flag, on every exit path (graceful
exit, forced kill after the grace period, or an exception raised
mid-sequence) the cleanup routine runs, the process reference is cleared,
the running flag is set to false, and stop() never raises; moreover, when
cleanup's own close and reap calls do not raise, all three pipe handles
are closed and the exit status is reaped. -/
theorem C1_stop_cleanup (s : SupState) (f : StopFaults) (p : Proc)
    (hp : s.process = some p) (hr : s.is_running = true) :
    (stop s f).1 = ⟨none, false⟩ ∧ (stop s f).2.cleanupRan = true ∧
    (stop s f).2.raised = false ∧
    (f.cleanup = CleanupFaults.none →
      (stop s f).2.cleanup = ⟨true, true, true, true⟩) := by
  have hs : s = ⟨some p, true⟩ := by
    rcases s with ⟨proc, run⟩
    simp_all
  subst hs
  exact ⟨(stop_state_running p f).1, (stop_state_running p f).2,
    stop_raised_false _ f, fun h => stop_cleanup_clean p f h⟩

/-- C1 witness: the theorem applied to a live running supervisor and a
fault-free stop. -/
theorem C1_stop_cleanup_witness :
    supLive.process = some pLive ∧ supLive.is_running = true ∧
    ((stop supLive faultsClean).1 = ⟨none, false⟩ ∧
     (stop supLive faultsClean).2.cleanupRan = true ∧
     (stop supLive faultsClean).2.raised = false ∧
     (faultsClean.cleanup = CleanupFaults.none →
       (stop supLive faultsClean).2.cleanup = ⟨true, true, true, true⟩)) :=
  ⟨rfl, rfl, C1_stop_cleanup supLive faultsClean pLive rfl rfl⟩

/-- C1 counterexample: when stdin.close() raises inside _cleanup_process,
the except clause absorbs the exception but the stdout and stderr closes
and the reap are skipped, so on this exit path not all three pipe handles
are closed - refuting the claim that the release of all three handles and
the reap happen on every exit path. -/
theorem C1_stop_cleanup_cex :
    supLive.is_running = true ∧
    (stop supLive faultsStdinRaise).2.cleanupRan = true ∧
    (stop supLive faultsStdinRaise).2.cleanup.stdoutClosed = false ∧
    (stop supLive faultsStdinRaise).2.cleanup.stderrClosed = false ∧
    (stop supLive faultsStdinRaise).2.cleanup.reaped = false :=
  ⟨rfl, rfl, rfl, rfl, rfl⟩

/-- C5 (amended): a line parsed as a JSON object is discarded exactly when
its method field equals "notifications/message" (objects carrying any
other method value are not filtered); an object is returned as the answer
exactly when it is not such a notification and either the expected id is
given and the object's id equals it, or no id is expected and the object
contains a result field. -/
theorem C5_read_response_filter (rid : Option Int) (fuel : Nat)
    (fs : List (String × Json)) (rest : List ReadLine) :
    readResponseAux rid (fuel + 1) (.parsed (.obj fs) :: rest) =
      (if acceptsAsAnswer (.obj fs) rid then some (.obj fs)
       else readResponseAux rid fuel rest) := by
  cases h1 : isMsgNotification (Json.obj fs) with
  | true => cases rid <;> simp [readResponseAux, acceptsAsAnswer, h1]
  | false =>
      cases rid with
      | none =>
          cases h2 : (Json.obj fs).hasKey "result" <;>
            simp [readResponseAux, acceptsAsAnswer, h1, h2]
      | some i =>
          cases h2 : idMatches (Json.obj fs) i <;>
            simp [readResponseAux, acceptsAsAnswer, h1, h2]

/-- C5 counterexample: an object carrying a method field (the notification
method "tools/progress") together with a result field is returned as the
answer when no expected id is given, refuting the claim that every object
carrying a method field is discarded and never returned. -/
theorem C5_read_response_cex :
    (jMethodResult.get? "method").isSome = true ∧
    readResponse none [.parsed jMethodResult] = some jMethodResult :=
  ⟨rfl, rfl⟩

/-- C6: a request whose response does not arrive within the per-server
timeout yields no response (the timeout failure), and the supervisor's
running flag and process state are exactly as before the call - no
cleanup runs and the flag is not demoted - provided the process is still
alive. -/
theorem C6_timeout_state_unchanged (s : SupState) (p : Proc)
    (hp : s.process = some p) (hr : s.is_running = true)
    (ha : p.exited = false) :
    sendRequest s ChanOutcome.timeout = (s, none) := by
  have hs : s = ⟨some p, true⟩ := by
    rcases s with ⟨proc, run⟩
    simp_all
  subst hs
  rcases p with ⟨pidv, ex⟩
  have hx : ex = false := ha
  subst hx
  rfl

/-- C6 witness: the theorem applied to a live running supervisor. -/
theorem C6_timeout_state_unchanged_witness :
    supLive.process = some pLive ∧ supLive.is_running = true ∧
    pLive.exited = false ∧
    sendRequest supLive ChanOutcome.timeout = (supLive, none) :=
  ⟨rfl, rfl, rfl,
   C6_timeout_state_unchanged supLive pLive rfl rfl rfl⟩

/-- C7: removing a live server stops it, returns true, deletes exactly the
tool descriptors it owns, increments servers_removed by one, and a second
removal of the now-unknown name returns false leaving the whole client
(including servers_removed) unchanged. -/
theorem C7_remove_server (c : MCPClient) (name : String) (s : SupState)
    (f : StopFaults) (h : dictGet c.servers name = some s) :
    (removeServer c name f).2 = true ∧
    dictGet (removeServer c name f).1.servers name = none ∧
    (∀ t ∈ getAvailableTools (removeServer c name f).1,
      t.server_name ≠ some name) ∧
    ((removeServer c name f).1.tools =
      c.tools.filter (fun p => decide (p.2.server_name ≠ some name))) ∧
    (removeServer c name f).1.stats.servers_removed =
      c.stats.servers_removed + 1 ∧
    removeServer (removeServer c name f).1 name f =
      ((removeServer c name f).1, false) := by
  have e2 : (stop s f).2.raised = false := stop_raised_false s f
  refine ⟨?_, ?_, ?_, ?_, ?_, ?_⟩
  · simp [removeServer, h, e2]
  · simp [removeServer, h, dictGet_dictDel_self]
  · intro t ht
    simp [removeServer, h, getAvailableTools, List.mem_filter,
      List.mem_map] at ht
    obtain ⟨hz, hne⟩ := ht
    exact hne
  · simp [removeServer, h]
  · simp [removeServer, h]
  · simp [removeServer, h, dictGet_dictDel_self]

/-- C7 witness: the theorem applied to a client with two servers and one
tool of each, removing server "a". -/
theorem C7_remove_server_witness :
    dictGet cTwo.servers "a" = some supLive ∧
    ((removeServer cTwo "a" faultsClean).2 = true ∧
     dictGet (removeServer cTwo "a" faultsClean).1.servers "a" = none ∧
     (∀ t ∈ getAvailableTools (removeServer cTwo "a" faultsClean).1,
       t.server_name ≠ some "a") ∧
     ((removeServer cTwo "a" faultsClean).1.tools =
       cTwo.tools.filter (fun p => decide (p.2.server_name ≠ some "a"))) ∧
     (removeServer cTwo "a" faultsClean).1.stats.servers_removed =
       cTwo.stats.servers_removed + 1 ∧
     removeServer (removeServer cTwo "a" faultsClean).1 "a" faultsClean =
       ((removeServer cTwo "a" faultsClean).1, false)) :=
  ⟨rfl, C7_remove_server cTwo "a" supLive faultsClean rfl⟩

/-- C8: force_shutdown empties both the server map and the tool map, its
result does not depend on whether any kill call raises (errors are
absorbed, it never raises), a second call in immediate succession is a
no-op returning the same empty client with no kills, and every supervisor
with a running flag and an attached process has its pid killed. -/
theorem C8_force_shutdown (c : MCPClient) (kf kg : Nat → Bool) :
    (forceShutdown c kf).1.servers = [] ∧
    (forceShutdown c kf).1.tools = [] ∧
    forceShutdown c kf = forceShutdown c kg ∧
    forceShutdown (forceShutdown c kf).1 kg =
      ((forceShutdown c kf).1, []) ∧
    (∀ (name : String) (s : SupState) (p : Proc), (name, s) ∈ c.servers →
      s.is_running = true → s.process = some p →
      p.pid ∈ (forceShutdown c kf).2) := by
  refine ⟨rfl, rfl, rfl, rfl, ?_⟩
  intro name s p hmem hrun hp
  exact killRunningPids_mem c.servers name s p hmem hrun hp

/-- A kill oracle where no kill call raises. -/
def kNever : Nat → Bool :=
  fun _ => false

/-- A kill oracle where every kill call raises. -/
def kAlways : Nat → Bool :=
  fun _ => true

/-- C8 witness: the theorem applied to the two-server client, with the
inner per-server clause instantiated at server "a". -/
theorem C8_force_shutdown_witness :
    (forceShutdown cTwo kNever).1.servers = [] ∧
    (forceShutdown cTwo kNever).1.tools = [] ∧
    forceShutdown cTwo kNever = forceShutdown cTwo kAlways ∧
    forceShutdown (forceShutdown cTwo kNever).1 kAlways =
      ((forceShutdown cTwo kNever).1, []) ∧
    (("a", supLive) ∈ cTwo.servers ∧ supLive.is_running = true ∧
     supLive.process = some pLive ∧
     pLive.pid ∈ (forceShutdown cTwo kNever).2) := by
  have H := C8_force_shutdown cTwo kNever kAlways
  have hmem : ("a", supLive) ∈ cTwo.servers := by simp [cTwo]
  exact ⟨H.1, H.2.1, H.2.2.1, H.2.2.2.1,
    hmem, rfl, rfl, H.2.2.2.2 "a" supLive pLive hmem rfl rfl⟩

/-- C9: for every supervisor, health_check reports running as the
conjunction of the cached flag and true process liveness, the liveness
itself, the server's tool count and its pid (null when no process is
attached), and corrects the cached flag to the conjunction in the stored
state; moreover the liveness probe at the top of send_request demotes the
flag to false whenever the process has exited. -/
theorem C9_health_probe (c : MCPClient) (name : String) (s : SupState)
    (h : dictGet c.servers name = some s) :
    dictGet (healthCheck c).2.servers name =
      some ⟨s.is_running && processAlive s, processAlive s,
            (getToolsByServer c name).length, s.process.map Proc.pid⟩ ∧
    dictGet (healthCheck c).1.servers name =
      some ⟨s.process, s.is_running && processAlive s⟩ ∧
    (∀ (o : ChanOutcome) (p : Proc), s.process = some p →
      p.exited = true → (sendRequest s o).1.is_running = false) := by
  refine ⟨?_, ?_, ?_⟩
  · show dictGet (c.servers.map (fun p => (p.1, healthEntry c p.1 p.2)))
      name = _
    rw [dictGet_map (healthEntry c), h]
    rfl
  · show dictGet (c.servers.map (fun p => (p.1, healthCorrect p.2)))
      name = _
    rw [dictGet_map_val healthCorrect, h]
    simp [healthCorrect_eq]
  · intro o p hp hx
    rcases s with ⟨proc, run⟩
    have hp' : proc = some p := hp
    subst hp'
    cases run <;> simp [sendRequest, hx]

/-- A client holding one supervisor whose process exited while the cached
running flag still says true. -/
def cStale : MCPClient :=
  ⟨[("z", supStale)], [], 0, ManagerStats.zero⟩

/-- C9 witness: the theorem applied to a client with one stale supervisor,
whose flag is corrected and whose report shows running=false while a pid
is still recorded. -/
theorem C9_health_probe_witness :
    dictGet cStale.servers "z" = some supStale ∧
    dictGet (healthCheck cStale).2.servers "z" =
      some ⟨false, false, 0, some 9⟩ ∧
    dictGet (healthCheck cStale).1.servers "z" =
      some ⟨some ⟨9, true⟩, false⟩ ∧
    (sendRequest supStale ChanOutcome.noReply).1.is_running = false := by
  have H := C9_health_probe cStale "z" supStale rfl
  exact ⟨rfl, H.1, H.2.1, H.2.2 ChanOutcome.noReply ⟨9, true⟩ rfl rfl⟩

/-- C2: for every config whose command fails to spawn or has already
exited when probed after the startup grace interval, add_server returns
false and afterwards the server map has no supervisor under the config's
name and the tool map has no descriptor owned by it (assuming the registry
invariant that a tool's owner always has a server entry held beforehand). -/
theorem C2_spawn_failure_no_trace (c : MCPClient) (cfg : MCPServerConfig)
    (o : AddOutcome) (f : StopFaults) (hstart : o.startOk = false)
    (hinv : ∀ p ∈ c.tools, p.2.server_name = some cfg.name →
      (dictGet c.servers cfg.name).isSome = true) :
    (addServer c cfg o f).2 = false ∧
    dictGet (addServer c cfg o f).1.servers cfg.name = none ∧
    (∀ t ∈ getAvailableTools (addServer c cfg o f).1,
      t.server_name ≠ some cfg.name) := by
  rcases hsrv : dictGet c.servers cfg.name with _ | s
  · refine ⟨?_, ?_, ?_⟩
    · simp [addServer, hstart, hsrv]
    · simp [addServer, hstart, hsrv]
    · intro t ht
      have htools : (addServer c cfg o f).1.tools = c.tools := by
        simp [addServer, hstart, hsrv]
      simp only [getAvailableTools, htools] at ht
      intro hcontra
      obtain ⟨p, hp, hpt⟩ := List.mem_map.mp ht
      have hx := hinv p hp (by rw [hpt]; exact hcontra)
      rw [hsrv] at hx
      exact absurd hx (by simp)
  · refine ⟨?_, ?_, ?_⟩
    · simp [addServer, hstart, hsrv, removeServer]
    · simp [addServer, hstart, hsrv, removeServer, dictGet_dictDel_self]
    · intro t ht
      have htools : (addServer c cfg o f).1.tools =
          c.tools.filter
            (fun p => decide (p.2.server_name ≠ some cfg.name)) := by
        simp [addServer, hstart, hsrv, removeServer]
      simp only [getAvailableTools, htools] at ht
      obtain ⟨p, hp, hpt⟩ := List.mem_map.mp ht
      have hne := (List.mem_filter.mp hp).2
      rw [← hpt]
      simpa using hne

/-- A client holding a single live server "b" and its one tool. -/
def cB : MCPClient :=
  ⟨[("b", supLive)], [("b.t2", ⟨"t2", "d2", some "b"⟩)], 0,
   ManagerStats.zero⟩

/-- C2 witness: the theorem applied to a client owning only server "b"
while admission of "alpha" fails to spawn. -/
theorem C2_spawn_failure_no_trace_witness :
    spawnFailure.startOk = false ∧
    (addServer cB cfgAlpha spawnFailure faultsClean).2 = false ∧
    dictGet (addServer cB cfgAlpha spawnFailure faultsClean).1.servers
      "alpha" = none ∧
    (∀ t ∈ getAvailableTools
        (addServer cB cfgAlpha spawnFailure faultsClean).1,
      t.server_name ≠ some "alpha") := by
  have H := C2_spawn_failure_no_trace cB cfgAlpha spawnFailure faultsClean
    rfl (by decide)
  exact ⟨rfl, H.1, H.2.1, H.2.2⟩

/-- C3 (amended): servers_created is incremented on every add_server call
- it counts admission attempts, not successes; servers_failed is
additionally incremented exactly when the call returns failure (spawn or
handshake failure) and is untouched on success. -/
theorem C3_created_counts_attempts (c : MCPClient) (cfg : MCPServerConfig)
    (o : AddOutcome) (f : StopFaults) :
    (addServer c cfg o f).1.stats.servers_created =
      c.stats.servers_created + 1 ∧
    ((addServer c cfg o f).2 = false →
      (addServer c cfg o f).1.stats.servers_failed =
        c.stats.servers_failed + 1) ∧
    ((addServer c cfg o f).2 = true →
      (addServer c cfg o f).1.stats.servers_failed =
        c.stats.servers_failed) := by
  rcases hs : dictGet c.servers cfg.name with _ | s <;>
    cases ho1 : o.startOk <;> cases ho2 : o.handshakeOk <;>
      refine ⟨?_, ?_, ?_⟩ <;>
        simp [addServer, removeServer, discoverTools, registerTools_stats,
          hs, ho1, ho2]

/-- C3 witness: a spawn-failing admission attempt bumps both the created
and the failed counters. -/
theorem C3_created_counts_attempts_witness :
    (addServer initClient cfgAlpha spawnFailure faultsClean).1.stats.servers_created =
      initClient.stats.servers_created + 1 ∧
    (addServer initClient cfgAlpha spawnFailure faultsClean).1.stats.servers_failed =
      initClient.stats.servers_failed + 1 := by
  have H := C3_created_counts_attempts initClient cfgAlpha spawnFailure
    faultsClean
  exact ⟨H.1, H.2.1 rfl⟩

/-- C3 counterexample: an add_server call that returns failure still
increments servers_created from 0 to 1, refuting the claim that it is
incremented if and only if the call succeeds. -/
theorem C3_created_counts_attempts_cex :
    (addServer initClient cfgAlpha spawnFailure faultsClean).2 = false ∧
    (addServer initClient cfgAlpha spawnFailure faultsClean).1.stats.servers_created = 1 :=
  ⟨rfl, rfl⟩

/-- A tools/call response carrying an error object with a message. -/
def respErr : Json :=
  .obj [("error", .obj [("message", .str "boom")])]

/-- C4 (amended): executing a tool on a known running server sends a
tools/call request carrying a fresh monotonically increasing id, touches
no stats counter (neither total_requests nor failed_requests exists as a
write anywhere in execute_tool); a response whose error field is an object
raises the tool-execution failure carrying the child's message (default
"Unknown error"); a response without an error field returns the result's
content entry if present, else the whole result object. -/
theorem C4_execute_tool (c : MCPClient) (sn tn : String) (args : Json)
    (resp : Option Json) (s : SupState)
    (hs : dictGet c.servers sn = some s) (hr : s.is_running = true) :
    (executeTool c sn tn args resp).1.request_id = c.request_id + 1 ∧
    (executeTool c sn tn args resp).2.1 =
      some (toolCallRequest (c.request_id + 1) tn args) ∧
    (executeTool c sn tn args resp).1.stats = c.stats ∧
    (∀ fs efs, resp = some (.obj fs) →
      lookupField fs "error" = some (.obj efs) →
      (executeTool c sn tn args resp).2.2 =
        .error (.toolExecutionError
          ((lookupField efs "message").getD (.str "Unknown error")))) ∧
    (∀ fs rfs, resp = some (.obj fs) → lookupField fs "error" = none →
      (lookupField fs "result").getD (.obj []) = .obj rfs →
      (executeTool c sn tn args resp).2.2 =
        ((lookupField rfs "content").elim
          (Except.ok (Json.obj rfs)) Except.ok)) := by
  have hred : executeTool c sn tn args resp =
      ({ c with request_id := c.request_id + 1 },
       some (toolCallRequest (c.request_id + 1) tn args),
       processToolResponse resp) := by
    simp [executeTool, hs, hr]
  refine ⟨by rw [hred], by rw [hred], by rw [hred], ?_, ?_⟩
  · intro fs efs h1 h2
    rw [hred]
    subst h1
    simp [processToolResponse, pyContains, pyIndex, pyGet, h2]
  · intro fs rfs h1 h2 h3
    rw [hred]
    subst h1
    cases hc : lookupField rfs "content" <;>
      simp [processToolResponse, pyContains, pyIndex, pyGet, h2, h3, hc]

/-- C4 witness: the theorem applied to the two-server client executing a
tool on running server "a", with a response carrying an error object. -/
theorem C4_execute_tool_witness :
    dictGet cTwo.servers "a" = some supLive ∧
    supLive.is_running = true ∧
    (executeTool cTwo "a" "t1" .null (some respErr)).1.request_id =
      cTwo.request_id + 1 ∧
    (executeTool cTwo "a" "t1" .null (some respErr)).2.1 =
      some (toolCallRequest (cTwo.request_id + 1) "t1" .null) ∧
    (executeTool cTwo "a" "t1" .null (some respErr)).1.stats =
      cTwo.stats ∧
    (executeTool cTwo "a" "t1" .null (some respErr)).2.2 =
      .error (.toolExecutionError (.str "boom")) := by
  have H := C4_execute_tool cTwo "a" "t1" .null (some respErr) supLive
    rfl rfl
  exact ⟨rfl, rfl, H.1, H.2.1, H.2.2.1,
    H.2.2.2.1 [("error", .obj [("message", .str "boom")])]
      [("message", .str "boom")] rfl rfl⟩

/-- C4 counterexample: a successful tools/call on a known running server
returns normally while total_requests is not incremented (it stays equal
to its old value), and an error response raises without incrementing
failed_requests - refuting the claim that execute_tool increments the
total_requests counter by one and failed_requests on error responses. -/
theorem C4_execute_tool_cex :
    (executeTool cTwo "a" "t1" .null (some respEmptyResult)).2.2 =
      .ok (.obj []) ∧
    (executeTool cTwo "a" "t1" .null
      (some respEmptyResult)).1.stats.total_requests =
      cTwo.stats.total_requests ∧
    (executeTool cTwo "a" "t1" .null
      (some respErr)).1.stats.failed_requests =
      cTwo.stats.failed_requests :=
  ⟨rfl, rfl, rfl⟩

/-- C10: when the channel produces no response object, execute_tool on a
known running server raises - but the exception is the TypeError of the
membership test on None, not the typed tool-execution failure and not the
ValueError classes used for unknown or stopped servers. -/
theorem C10_none_response_type_error (c : MCPClient) (sn tn : String)
    (args : Json) (s : SupState) (hs : dictGet c.servers sn = some s)
    (hr : s.is_running = true) :
    (executeTool c sn tn args none).2.2 = .error .typeError ∧
    (∀ m, (executeTool c sn tn args none).2.2 ≠
      .error (.toolExecutionError m)) ∧
    (∀ m, (executeTool c sn tn args none).2.2 ≠
      .error (.valueError m)) := by
  have hred : executeTool c sn tn args none =
      ({ c with request_id := c.request_id + 1 },
       some (toolCallRequest (c.request_id + 1) tn args),
       processToolResponse none) := by
    simp [executeTool, hs, hr]
  refine ⟨by rw [hred]; rfl, ?_, ?_⟩
  · intro m
    rw [hred]
    simp [processToolResponse]
  · intro m
    rw [hred]
    simp [processToolResponse]

/-- C10 witness: the theorem applied to the two-server client with a
channel that produced no response. -/
theorem C10_none_response_type_error_witness :
    dictGet cTwo.servers "a" = some supLive ∧
    supLive.is_running = true ∧
    (executeTool cTwo "a" "t1" .null none).2.2 = .error .typeError ∧
    (executeTool cTwo "a" "t1" .null none).2.2 ≠
      .error (.toolExecutionError (.str "x")) := by
  have H := C10_none_response_type_error cTwo "a" "t1" .null supLive
    rfl rfl
  exact ⟨rfl, rfl, H.1, H.2.1 (.str "x")⟩

end MCP
